import Mathlib

/-!
Verification of the D2C ROI / ROAS calculators.

The repository's metric-model layer is embedded shallowly: Python dataclasses
become Lean structures, the pure formula functions become Lean functions over
`ℚ` (the source computes with IEEE floats on decimal literals; the arithmetic
contracts of the specification are exact, so rationals are the faithful
carrier), and the per-scenario lookup dictionaries become total functions on
the three-valued `GrowthScenario` enumeration.

Sources embedded:
  - `Campaign` and `ROASCalculator` (identical in `simple_calculator.py`,
    `web_calculator.py` and `roas_calculator.py`);
  - `MerchantMetrics`, `UpgradeMetrics`, `GrowthScenario`, `ROICalculator`
    and `create_growth_summary_table` from `roi_calculator.py` (the summary
    table's dollar formatting/parsing round-trip is presentation; its numeric
    content, the per-feature per-scenario margin impacts, is embedded).
-/

/-- `Campaign` dataclass of `simple_calculator.py` / `web_calculator.py` /
`roas_calculator.py`: revenue, ad spend, new-buyer share (percentage) and
discount percentage. -/
structure Campaign where
  revenue : ℚ
  ad_spend : ℚ
  new_buyer_share : ℚ
  discount_percentage : ℚ
deriving DecidableEq, Repr

/-- The `new_buyer_ad_spend` property of `web_calculator.Campaign`:
ad spend attributed to new buyers. -/
def Campaign.new_buyer_ad_spend (c : Campaign) : ℚ :=
  c.ad_spend * (c.new_buyer_share / 100)

/-- The `discount_amount` property: discount applied to the new-buyer share
of ad spend.  In the source this is a `@property`, i.e. recomputed from the
stored fields on every access; the embedding mirrors that by making it a
function of the record, not a stored field. -/
def Campaign.discount_amount (c : Campaign) : ℚ :=
  let new_buyer_ad_spend := c.ad_spend * (c.new_buyer_share / 100)
  new_buyer_ad_spend * (c.discount_percentage / 100)

namespace ROASCalculator

/-- `ROASCalculator.calculate_traditional_roas`: revenue / ad spend, with a
0.0 sentinel when ad spend is zero. -/
def calculate_traditional_roas (campaign : Campaign) : ℚ :=
  if campaign.ad_spend = 0 then 0
  else campaign.revenue / campaign.ad_spend

/-- `ROASCalculator.calculate_adjusted_roas`: revenue / (ad spend + discount
amount), with a 0.0 sentinel when that total cost is zero. -/
def calculate_adjusted_roas (campaign : Campaign) : ℚ :=
  let total_cost := campaign.ad_spend + campaign.discount_amount
  if total_cost = 0 then 0
  else campaign.revenue / total_cost

end ROASCalculator

/-- C1: `calculate_traditional_roas` returns the sentinel 0.0 when
`ad_spend = 0` and `revenue / ad_spend` otherwise; being a total function it
raises no error and has no further special case. -/
theorem claim1_traditional_roas_contract (c : Campaign) :
    (c.ad_spend = 0 → ROASCalculator.calculate_traditional_roas c = 0) ∧
    (c.ad_spend ≠ 0 →
      ROASCalculator.calculate_traditional_roas c = c.revenue / c.ad_spend) := by
  unfold ROASCalculator.calculate_traditional_roas
  constructor
  · intro h; simp [h]
  · intro h; simp [h]

/-- Witness for C1 at the spec's worked example: revenue 1000, ad spend 100
gives traditional ROAS 10, and a zero-spend campaign yields the sentinel. -/
theorem claim1_traditional_roas_contract_witness :
    ROASCalculator.calculate_traditional_roas ⟨1000, 100, 10, 20⟩ = 10 ∧
    ROASCalculator.calculate_traditional_roas ⟨1000, 0, 10, 20⟩ = 0 := by
  constructor
  · have h := (claim1_traditional_roas_contract ⟨1000, 100, 10, 20⟩).2 (by norm_num)
    rw [h]; norm_num
  · exact (claim1_traditional_roas_contract ⟨1000, 0, 10, 20⟩).1 rfl

/-- C2: `calculate_adjusted_roas` returns the sentinel 0.0 when the
denominator `ad_spend + discount_amount` is zero (in particular when ad spend
and discount amount are both zero) and `revenue / (ad_spend + discount_amount)`
otherwise; it raises no error. -/
theorem claim2_adjusted_roas_contract (c : Campaign) :
    (c.ad_spend + c.discount_amount = 0 →
      ROASCalculator.calculate_adjusted_roas c = 0) ∧
    (c.ad_spend + c.discount_amount ≠ 0 →
      ROASCalculator.calculate_adjusted_roas c =
        c.revenue / (c.ad_spend + c.discount_amount)) ∧
    (c.ad_spend = 0 ∧ c.discount_amount = 0 →
      ROASCalculator.calculate_adjusted_roas c = 0) := by
  unfold ROASCalculator.calculate_adjusted_roas
  refine ⟨fun h => by simp [h], fun h => by simp [h], fun h => by simp [h.1, h.2]⟩

/-- Witness for C2 at the spec's worked example: revenue 1000, ad spend 100,
new-buyer share 10%, discount 20% gives adjusted ROAS 1000/102, and a
zero-cost campaign yields the sentinel. -/
theorem claim2_adjusted_roas_contract_witness :
    ROASCalculator.calculate_adjusted_roas ⟨1000, 100, 10, 20⟩ = 1000 / 102 ∧
    ROASCalculator.calculate_adjusted_roas ⟨1000, 0, 10, 20⟩ = 0 := by
  constructor
  · have h := (claim2_adjusted_roas_contract ⟨1000, 100, 10, 20⟩).2.1 (by
      show (100 : ℚ) + Campaign.discount_amount _ ≠ 0
      unfold Campaign.discount_amount; norm_num)
    rw [h]
    show (1000 : ℚ) / (100 + Campaign.discount_amount _) = 1000 / 102
    unfold Campaign.discount_amount; norm_num
  · refine (claim2_adjusted_roas_contract ⟨1000, 0, 10, 20⟩).2.2 ⟨rfl, ?_⟩
    unfold Campaign.discount_amount; norm_num

/-- C3: the derived accessor `discount_amount` is the discount percentage
applied to the new-buyer share of ad spend, and it is a pure function of the
four stored fields (the source makes it a `@property` recomputed on each
access; the last conjunct records that it is determined by the stored fields,
never an independent cached value). -/
theorem claim3_discount_amount_formula (c : Campaign)
    (hrev : 0 ≤ c.revenue) (has : 0 ≤ c.ad_spend)
    (hshare : 0 ≤ c.new_buyer_share) (hdisc : 0 ≤ c.discount_percentage) :
    c.discount_amount =
      c.ad_spend * (c.new_buyer_share / 100) * (c.discount_percentage / 100) ∧
    c.discount_amount = c.new_buyer_ad_spend * (c.discount_percentage / 100) ∧
    (∀ c' : Campaign, c'.ad_spend = c.ad_spend →
      c'.new_buyer_share = c.new_buyer_share →
      c'.discount_percentage = c.discount_percentage →
      c'.discount_amount = c.discount_amount) := by
  refine ⟨rfl, rfl, fun c' h1 h2 h3 => ?_⟩
  unfold Campaign.discount_amount
  rw [h1, h2, h3]

/-- Witness for C3 at the spec's worked example: ad spend 100, new-buyer
share 10%, discount 20% gives discount amount 2. -/
theorem claim3_discount_amount_formula_witness :
    (0:ℚ) ≤ 1000 ∧ Campaign.discount_amount ⟨1000, 100, 10, 20⟩ = 2 := by
  have h := (claim3_discount_amount_formula ⟨1000, 100, 10, 20⟩
    (by norm_num) (by norm_num) (by norm_num) (by norm_num)).1
  exact ⟨by norm_num, by rw [h]; norm_num⟩

/-- Counterexample to C4 as stated: with a negative ad spend the claim's
hypotheses (revenue > 0, discount_amount > 0) can hold while the adjusted
ROAS strictly exceeds the traditional one.  Campaign
(revenue 1, ad_spend −1, new_buyer_share −200, discount_percentage 100) has
discount_amount = 2 > 0, traditional ROAS −1 and adjusted ROAS 1. -/
theorem claim4_counterexample :
    0 < (Campaign.mk 1 (-1) (-200) 100).revenue ∧
    0 < (Campaign.mk 1 (-1) (-200) 100).discount_amount ∧
    ¬ (ROASCalculator.calculate_adjusted_roas (Campaign.mk 1 (-1) (-200) 100) ≤
       ROASCalculator.calculate_traditional_roas (Campaign.mk 1 (-1) (-200) 100)) := by
  refine ⟨by norm_num, ?_, ?_⟩
  · unfold Campaign.discount_amount
    norm_num
  · unfold ROASCalculator.calculate_adjusted_roas
      ROASCalculator.calculate_traditional_roas Campaign.discount_amount
    norm_num

/-- C4 (amended with `0 ≤ ad_spend`): for every campaign with positive
revenue, non-negative ad spend and positive discount amount, the adjusted
ROAS is at most the traditional ROAS, because the adjusted denominator
`ad_spend + discount_amount` is larger than `ad_spend`. -/
theorem claim4_adjusted_le_traditional (c : Campaign)
    (hrev : 0 < c.revenue) (has : 0 ≤ c.ad_spend)
    (hd : 0 < c.discount_amount) :
    ROASCalculator.calculate_adjusted_roas c ≤
      ROASCalculator.calculate_traditional_roas c := by
  have hasne : c.ad_spend ≠ 0 := by
    intro h
    rw [Campaign.discount_amount] at hd
    simp [h] at hd
  have haspos : 0 < c.ad_spend := lt_of_le_of_ne has (Ne.symm hasne)
  have hden : 0 < c.ad_spend + c.discount_amount := by linarith
  unfold ROASCalculator.calculate_adjusted_roas
    ROASCalculator.calculate_traditional_roas
  rw [if_neg hden.ne', if_neg hasne]
  gcongr
  all_goals linarith

/-- Witness for C4 at the spec's worked example: revenue 1000, ad spend 100,
new-buyer share 10%, discount 20% (discount amount 2) satisfies the
hypotheses, and indeed 1000/102 ≤ 1000/100. -/
theorem claim4_adjusted_le_traditional_witness :
    ROASCalculator.calculate_adjusted_roas ⟨1000, 100, 10, 20⟩ ≤
      ROASCalculator.calculate_traditional_roas ⟨1000, 100, 10, 20⟩ :=
  claim4_adjusted_le_traditional ⟨1000, 100, 10, 20⟩ (by norm_num) (by norm_num)
    (by unfold Campaign.discount_amount; norm_num)

/-- C10: under non-negative fields the adjusted-ROAS denominator
`ad_spend + discount_amount` vanishes exactly when `ad_spend = 0`, so
`calculate_adjusted_roas` takes its 0.0 sentinel branch exactly when the ad
spend is zero. -/
theorem claim10_sentinel_iff_zero_spend (c : Campaign)
    (hrev : 0 ≤ c.revenue) (has : 0 ≤ c.ad_spend)
    (hshare : 0 ≤ c.new_buyer_share) (hdisc : 0 ≤ c.discount_percentage) :
    (c.ad_spend + c.discount_amount = 0 ↔ c.ad_spend = 0) ∧
    (c.ad_spend = 0 → ROASCalculator.calculate_adjusted_roas c = 0) := by
  have hdnonneg : 0 ≤ c.discount_amount := by
    unfold Campaign.discount_amount
    positivity
  have hiff : c.ad_spend + c.discount_amount = 0 ↔ c.ad_spend = 0 := by
    constructor
    · intro h; linarith
    · intro h
      rw [Campaign.discount_amount] at *
      simp [h]
  refine ⟨hiff, fun h => ?_⟩
  unfold ROASCalculator.calculate_adjusted_roas
  rw [if_pos (hiff.mpr h)]

/-- Witness for C10: the zero-spend campaign (0, 0, 10, 20) has a vanishing
denominator and takes the sentinel branch. -/
theorem claim10_sentinel_iff_zero_spend_witness :
    ((Campaign.mk 0 0 10 20).ad_spend + (Campaign.mk 0 0 10 20).discount_amount = 0
      ↔ (Campaign.mk 0 0 10 20).ad_spend = 0) ∧
    ROASCalculator.calculate_adjusted_roas (Campaign.mk 0 0 10 20) = 0 := by
  have h := claim10_sentinel_iff_zero_spend (Campaign.mk 0 0 10 20)
    (by norm_num) (by norm_num) (by norm_num) (by norm_num)
  exact ⟨h.1, h.2 rfl⟩

/-- `GrowthScenario` enum of `roi_calculator.py`: a closed three-valued
enumeration Low / Medium / High. -/
inductive GrowthScenario where
  | LOW
  | MEDIUM
  | HIGH
deriving DecidableEq, Repr

/-- `MerchantMetrics` dataclass of `roi_calculator.py`.  The source declares
`annual_transactions` as `int`; Python promotes it to float in every formula,
so the embedding carries it in `ℚ` like the other fields. -/
structure MerchantMetrics where
  annual_gmv : ℚ
  aov : ℚ
  annual_transactions : ℚ
  profit_margin : ℚ
  ad_spend : ℚ
  retargeting_budget_allocation : ℚ
  retargeting_cpa : ℚ
  prospecting_cpa : ℚ
  ltv : ℚ
  payments_profile_online : ℚ
  orders_on_payments : ℚ
  current_conversion_rate : ℚ
  shop_pay_usage : ℚ
deriving DecidableEq, Repr

/-- `UpgradeMetrics` dataclass of `roi_calculator.py`: per-feature upgrade
costs, each a mapping from growth scenario to a cost amount. -/
structure UpgradeMetrics where
  checkout_customization_cost : GrowthScenario → ℚ
  checkout_upsell_cost : GrowthScenario → ℚ
  plus_support_cost : GrowthScenario → ℚ
  audiences_cost : GrowthScenario → ℚ

/-- `ROICalculator.__init__` stores the two metric records. -/
structure ROICalculator where
  merchant_metrics : MerchantMetrics
  upgrade_metrics : UpgradeMetrics

/-- Result bundle of the five conversion-increase impact functions (the
source returns a dict with keys 'Conversion Rate Increase',
'New Conversion Rate', 'Additional Orders', 'Revenue Impact',
'Margin Impact'; the embedding keeps the numeric values, the string
formatting being presentation). -/
structure ConversionImpact where
  conversion_rate_increase : ℚ
  new_conversion_rate : ℚ
  additional_orders : ℚ
  revenue_impact : ℚ
  margin_impact : ℚ
deriving DecidableEq, Repr

/-- Result bundle of the two AOV-increase impact functions (source dict keys
'AOV Increase', 'New AOV', 'Revenue Impact', 'Margin Impact'). -/
structure AovImpact where
  aov_increase : ℚ
  new_aov : ℚ
  revenue_impact : ℚ
  margin_impact : ℚ
deriving DecidableEq, Repr

namespace ROICalculator

/-- `calculate_checkout_customization_impact`: conversion deltas
1% / 3% / 5%. -/
def calculate_checkout_customization_impact (self : ROICalculator)
    (s : GrowthScenario) : ConversionImpact :=
  let conversion_increase : GrowthScenario → ℚ := fun x => match x with
    | .LOW => 0.01
    | .MEDIUM => 0.03
    | .HIGH => 0.05
  let new_conversion_rate :=
    self.merchant_metrics.current_conversion_rate * (1 + conversion_increase s)
  let additional_orders :=
    self.merchant_metrics.annual_transactions * conversion_increase s
  let revenue_impact := additional_orders * self.merchant_metrics.aov
  let margin_impact := revenue_impact * (self.merchant_metrics.profit_margin / 100)
  { conversion_rate_increase := conversion_increase s
    new_conversion_rate := new_conversion_rate
    additional_orders := additional_orders
    revenue_impact := revenue_impact
    margin_impact := margin_impact }

/-- `calculate_checkout_upsell_impact`: AOV deltas 5% / 10% / 20%. -/
def calculate_checkout_upsell_impact (self : ROICalculator)
    (s : GrowthScenario) : AovImpact :=
  let aov_increase : GrowthScenario → ℚ := fun x => match x with
    | .LOW => 0.05
    | .MEDIUM => 0.10
    | .HIGH => 0.20
  let new_aov := self.merchant_metrics.aov * (1 + aov_increase s)
  let revenue_impact :=
    self.merchant_metrics.annual_transactions * (new_aov - self.merchant_metrics.aov)
  let margin_impact := revenue_impact * (self.merchant_metrics.profit_margin / 100)
  { aov_increase := aov_increase s
    new_aov := new_aov
    revenue_impact := revenue_impact
    margin_impact := margin_impact }

/-- `calculate_plus_support_impact`: conversion deltas 0.5% / 1% / 1.5%. -/
def calculate_plus_support_impact (self : ROICalculator)
    (s : GrowthScenario) : ConversionImpact :=
  let conversion_increase : GrowthScenario → ℚ := fun x => match x with
    | .LOW => 0.005
    | .MEDIUM => 0.01
    | .HIGH => 0.015
  let new_conversion_rate :=
    self.merchant_metrics.current_conversion_rate * (1 + conversion_increase s)
  let additional_orders :=
    self.merchant_metrics.annual_transactions * conversion_increase s
  let revenue_impact := additional_orders * self.merchant_metrics.aov
  let margin_impact := revenue_impact * (self.merchant_metrics.profit_margin / 100)
  { conversion_rate_increase := conversion_increase s
    new_conversion_rate := new_conversion_rate
    additional_orders := additional_orders
    revenue_impact := revenue_impact
    margin_impact := margin_impact }

/-- `calculate_audiences_impact`: conversion deltas 2% / 4% / 6%. -/
def calculate_audiences_impact (self : ROICalculator)
    (s : GrowthScenario) : ConversionImpact :=
  let conversion_increase : GrowthScenario → ℚ := fun x => match x with
    | .LOW => 0.02
    | .MEDIUM => 0.04
    | .HIGH => 0.06
  let new_conversion_rate :=
    self.merchant_metrics.current_conversion_rate * (1 + conversion_increase s)
  let additional_orders :=
    self.merchant_metrics.annual_transactions * conversion_increase s
  let revenue_impact := additional_orders * self.merchant_metrics.aov
  let margin_impact := revenue_impact * (self.merchant_metrics.profit_margin / 100)
  { conversion_rate_increase := conversion_increase s
    new_conversion_rate := new_conversion_rate
    additional_orders := additional_orders
    revenue_impact := revenue_impact
    margin_impact := margin_impact }

/-- `calculate_shop_pay_conversion_impact`: conversion deltas 3% / 5% / 7%. -/
def calculate_shop_pay_conversion_impact (self : ROICalculator)
    (s : GrowthScenario) : ConversionImpact :=
  let conversion_increase : GrowthScenario → ℚ := fun x => match x with
    | .LOW => 0.03
    | .MEDIUM => 0.05
    | .HIGH => 0.07
  let new_conversion_rate :=
    self.merchant_metrics.current_conversion_rate * (1 + conversion_increase s)
  let additional_orders :=
    self.merchant_metrics.annual_transactions * conversion_increase s
  let revenue_impact := additional_orders * self.merchant_metrics.aov
  let margin_impact := revenue_impact * (self.merchant_metrics.profit_margin / 100)
  { conversion_rate_increase := conversion_increase s
    new_conversion_rate := new_conversion_rate
    additional_orders := additional_orders
    revenue_impact := revenue_impact
    margin_impact := margin_impact }

/-- `calculate_shop_pay_aov_impact`: AOV deltas 5% / 10% / 20%. -/
def calculate_shop_pay_aov_impact (self : ROICalculator)
    (s : GrowthScenario) : AovImpact :=
  let aov_increase : GrowthScenario → ℚ := fun x => match x with
    | .LOW => 0.05
    | .MEDIUM => 0.10
    | .HIGH => 0.20
  let new_aov := self.merchant_metrics.aov * (1 + aov_increase s)
  let revenue_impact :=
    self.merchant_metrics.annual_transactions * (new_aov - self.merchant_metrics.aov)
  let margin_impact := revenue_impact * (self.merchant_metrics.profit_margin / 100)
  { aov_increase := aov_increase s
    new_aov := new_aov
    revenue_impact := revenue_impact
    margin_impact := margin_impact }

/-- `calculate_non_shop_pay_conversion_impact`: conversion deltas
1% / 2% / 3%. -/
def calculate_non_shop_pay_conversion_impact (self : ROICalculator)
    (s : GrowthScenario) : ConversionImpact :=
  let conversion_increase : GrowthScenario → ℚ := fun x => match x with
    | .LOW => 0.01
    | .MEDIUM => 0.02
    | .HIGH => 0.03
  let new_conversion_rate :=
    self.merchant_metrics.current_conversion_rate * (1 + conversion_increase s)
  let additional_orders :=
    self.merchant_metrics.annual_transactions * conversion_increase s
  let revenue_impact := additional_orders * self.merchant_metrics.aov
  let margin_impact := revenue_impact * (self.merchant_metrics.profit_margin / 100)
  { conversion_rate_increase := conversion_increase s
    new_conversion_rate := new_conversion_rate
    additional_orders := additional_orders
    revenue_impact := revenue_impact
    margin_impact := margin_impact }

end ROICalculator

/-- One row of the Growth-from-Upgrading summary: feature label and the
margin impact under the Low / Medium / High scenarios. -/
structure GrowthSummaryRow where
  feature : String
  low_growth : ℚ
  medium_growth : ℚ
  high_growth : ℚ
deriving DecidableEq, Repr

/-- `create_growth_summary_table`: the 7 × 3 table of margin impacts.  The
source formats each margin impact as a dollar string, parses it back with
`float(... .replace)` and reformats it; that round trip is lossless on the
numeric value, so the embedding records the margin impacts themselves. -/
def create_growth_summary_table (calculator : ROICalculator) : List GrowthSummaryRow :=
  [ { feature := "Checkout Customization with API"
      low_growth := (calculator.calculate_checkout_customization_impact .LOW).margin_impact
      medium_growth := (calculator.calculate_checkout_customization_impact .MEDIUM).margin_impact
      high_growth := (calculator.calculate_checkout_customization_impact .HIGH).margin_impact },
    { feature := "Checkout Upsell with 3P apps"
      low_growth := (calculator.calculate_checkout_upsell_impact .LOW).margin_impact
      medium_growth := (calculator.calculate_checkout_upsell_impact .MEDIUM).margin_impact
      high_growth := (calculator.calculate_checkout_upsell_impact .HIGH).margin_impact },
    { feature := "Plus Support Help"
      low_growth := (calculator.calculate_plus_support_impact .LOW).margin_impact
      medium_growth := (calculator.calculate_plus_support_impact .MEDIUM).margin_impact
      high_growth := (calculator.calculate_plus_support_impact .HIGH).margin_impact },
    { feature := "Increased Retargeting with Audiences"
      low_growth := (calculator.calculate_audiences_impact .LOW).margin_impact
      medium_growth := (calculator.calculate_audiences_impact .MEDIUM).margin_impact
      high_growth := (calculator.calculate_audiences_impact .HIGH).margin_impact },
    { feature := "Increased Conversion with Shop Pay"
      low_growth := (calculator.calculate_shop_pay_conversion_impact .LOW).margin_impact
      medium_growth := (calculator.calculate_shop_pay_conversion_impact .MEDIUM).margin_impact
      high_growth := (calculator.calculate_shop_pay_conversion_impact .HIGH).margin_impact },
    { feature := "Increased AOV with Shop Pay"
      low_growth := (calculator.calculate_shop_pay_aov_impact .LOW).margin_impact
      medium_growth := (calculator.calculate_shop_pay_aov_impact .MEDIUM).margin_impact
      high_growth := (calculator.calculate_shop_pay_aov_impact .HIGH).margin_impact },
    { feature := "Increased Conversion without Shop Pay"
      low_growth := (calculator.calculate_non_shop_pay_conversion_impact .LOW).margin_impact
      medium_growth := (calculator.calculate_non_shop_pay_conversion_impact .MEDIUM).margin_impact
      high_growth := (calculator.calculate_non_shop_pay_conversion_impact .HIGH).margin_impact } ]

/-- The seven upgrade features of §4.2 of the spec. -/
inductive Feature where
  | checkoutCustomization
  | checkoutUpsell
  | plusSupport
  | audiencesRetargeting
  | shopPayConversion
  | shopPayAov
  | nonShopPayConversion
deriving DecidableEq, Repr

/-- Modelled from the spec: the per-feature, per-scenario Δ table of §4.2
(Checkout Customization 1%/3%/5%, Checkout Upsell 5%/10%/20%, Plus Support
0.5%/1%/1.5%, Audiences Retargeting 2%/4%/6%, Shop Pay Conversion 3%/5%/7%,
Shop Pay AOV 5%/10%/20%, Non-Shop-Pay Conversion 1%/2%/3%), written
independently of the source's in-function dictionaries so the two can be
compared. -/
def specDelta : Feature → GrowthScenario → ℚ
  | .checkoutCustomization, .LOW => 1 / 100
  | .checkoutCustomization, .MEDIUM => 3 / 100
  | .checkoutCustomization, .HIGH => 5 / 100
  | .checkoutUpsell, .LOW => 5 / 100
  | .checkoutUpsell, .MEDIUM => 10 / 100
  | .checkoutUpsell, .HIGH => 20 / 100
  | .plusSupport, .LOW => 5 / 1000
  | .plusSupport, .MEDIUM => 1 / 100
  | .plusSupport, .HIGH => 15 / 1000
  | .audiencesRetargeting, .LOW => 2 / 100
  | .audiencesRetargeting, .MEDIUM => 4 / 100
  | .audiencesRetargeting, .HIGH => 6 / 100
  | .shopPayConversion, .LOW => 3 / 100
  | .shopPayConversion, .MEDIUM => 5 / 100
  | .shopPayConversion, .HIGH => 7 / 100
  | .shopPayAov, .LOW => 5 / 100
  | .shopPayAov, .MEDIUM => 10 / 100
  | .shopPayAov, .HIGH => 20 / 100
  | .nonShopPayConversion, .LOW => 1 / 100
  | .nonShopPayConversion, .MEDIUM => 2 / 100
  | .nonShopPayConversion, .HIGH => 3 / 100

/-- Modelled from the spec: the conversion-increase variant of §4.2 —
new_rate = current_conversion_rate × (1 + Δ), additional_orders =
annual_transactions × Δ, revenue_impact = additional_orders × AOV,
margin_impact = revenue_impact × margin/100. -/
def conversionVariantSpec (m : MerchantMetrics) (delta : ℚ) : ConversionImpact :=
  { conversion_rate_increase := delta
    new_conversion_rate := m.current_conversion_rate * (1 + delta)
    additional_orders := m.annual_transactions * delta
    revenue_impact := m.annual_transactions * delta * m.aov
    margin_impact := m.annual_transactions * delta * m.aov * (m.profit_margin / 100) }

/-- Modelled from the spec: the AOV-increase variant of §4.2 — new_aov =
AOV × (1 + Δ), revenue_impact = annual_transactions × (new_aov − AOV),
margin_impact = revenue_impact × margin/100. -/
def aovVariantSpec (m : MerchantMetrics) (delta : ℚ) : AovImpact :=
  { aov_increase := delta
    new_aov := m.aov * (1 + delta)
    revenue_impact := m.annual_transactions * (m.aov * (1 + delta) - m.aov)
    margin_impact :=
      m.annual_transactions * (m.aov * (1 + delta) - m.aov) * (m.profit_margin / 100) }

/-- The UI-default merchant metrics of `roi_calculator.main` (annual GMV
1,000,000; AOV 70; 35,000 transactions; margin 15%; ad spend 50,000;
retargeting allocation 15%; retargeting CPA 75; prospecting CPA 100;
LTV 200; payments profile 100%; orders on payments 100%; conversion rate 3%;
Shop Pay usage 40%), used as the spec's worked ROI example. -/
def defaultMerchantMetrics : MerchantMetrics :=
  { annual_gmv := 1000000
    aov := 70
    annual_transactions := 35000
    profit_margin := 15
    ad_spend := 50000
    retargeting_budget_allocation := 15
    retargeting_cpa := 75
    prospecting_cpa := 100
    ltv := 200
    payments_profile_online := 100
    orders_on_payments := 100
    current_conversion_rate := 3.0
    shop_pay_usage := 40 }

/-- The UI-default upgrade costs of `roi_calculator.main`. -/
def defaultUpgradeMetrics : UpgradeMetrics :=
  { checkout_customization_cost := fun s => match s with
      | .LOW => 125 | .MEDIUM => 378.75 | .HIGH => 650.19
    checkout_upsell_cost := fun s => match s with
      | .LOW => 1531.25 | .MEDIUM => 3062.50 | .HIGH => 6125
    plus_support_cost := fun s => match s with
      | .LOW => 16.13 | .MEDIUM => 70.95 | .HIGH => 408.50
    audiences_cost := fun s => match s with
      | .LOW => 68 | .MEDIUM => 898 | .HIGH => 2746 }

/-- C5: each of the five conversion-increase impact functions agrees, on
every merchant record and scenario, with the spec's conversion-increase
variant formulas instantiated at its feature's Δ; in particular the spec's
worked example (default metrics, Medium checkout customization) yields 1050
additional orders, 73500 revenue impact and 11025 margin impact. -/
theorem claim5_conversion_variant_refinement :
    (∀ (m : MerchantMetrics) (u : UpgradeMetrics) (s : GrowthScenario),
      ROICalculator.calculate_checkout_customization_impact ⟨m, u⟩ s =
        conversionVariantSpec m (specDelta .checkoutCustomization s) ∧
      ROICalculator.calculate_plus_support_impact ⟨m, u⟩ s =
        conversionVariantSpec m (specDelta .plusSupport s) ∧
      ROICalculator.calculate_audiences_impact ⟨m, u⟩ s =
        conversionVariantSpec m (specDelta .audiencesRetargeting s) ∧
      ROICalculator.calculate_shop_pay_conversion_impact ⟨m, u⟩ s =
        conversionVariantSpec m (specDelta .shopPayConversion s) ∧
      ROICalculator.calculate_non_shop_pay_conversion_impact ⟨m, u⟩ s =
        conversionVariantSpec m (specDelta .nonShopPayConversion s)) ∧
    (∀ u : UpgradeMetrics,
      (ROICalculator.calculate_checkout_customization_impact
        ⟨defaultMerchantMetrics, u⟩ .MEDIUM).additional_orders = 1050 ∧
      (ROICalculator.calculate_checkout_customization_impact
        ⟨defaultMerchantMetrics, u⟩ .MEDIUM).revenue_impact = 73500 ∧
      (ROICalculator.calculate_checkout_customization_impact
        ⟨defaultMerchantMetrics, u⟩ .MEDIUM).margin_impact = 11025) := by
  constructor
  · intro m u s
    refine ⟨?_, ?_, ?_, ?_, ?_⟩ <;>
      cases s <;>
        simp [ROICalculator.calculate_checkout_customization_impact,
          ROICalculator.calculate_plus_support_impact,
          ROICalculator.calculate_audiences_impact,
          ROICalculator.calculate_shop_pay_conversion_impact,
          ROICalculator.calculate_non_shop_pay_conversion_impact,
          conversionVariantSpec, specDelta, ConversionImpact.mk.injEq] <;>
        norm_num
  · intro u
    refine ⟨?_, ?_, ?_⟩ <;>
      simp [ROICalculator.calculate_checkout_customization_impact,
        defaultMerchantMetrics] <;>
      norm_num

/-- C6: the two AOV-increase impact functions agree, on every merchant
record and scenario, with the spec's AOV-increase variant formulas
instantiated at their feature's Δ; in particular the spec's worked example
(default metrics, High checkout upsell) yields new AOV 84, revenue impact
490000 and margin impact 73500. -/
theorem claim6_aov_variant_refinement :
    (∀ (m : MerchantMetrics) (u : UpgradeMetrics) (s : GrowthScenario),
      ROICalculator.calculate_checkout_upsell_impact ⟨m, u⟩ s =
        aovVariantSpec m (specDelta .checkoutUpsell s) ∧
      ROICalculator.calculate_shop_pay_aov_impact ⟨m, u⟩ s =
        aovVariantSpec m (specDelta .shopPayAov s)) ∧
    (∀ u : UpgradeMetrics,
      (ROICalculator.calculate_checkout_upsell_impact
        ⟨defaultMerchantMetrics, u⟩ .HIGH).new_aov = 84 ∧
      (ROICalculator.calculate_checkout_upsell_impact
        ⟨defaultMerchantMetrics, u⟩ .HIGH).revenue_impact = 490000 ∧
      (ROICalculator.calculate_checkout_upsell_impact
        ⟨defaultMerchantMetrics, u⟩ .HIGH).margin_impact = 73500) := by
  constructor
  · intro m u s
    refine ⟨?_, ?_⟩ <;>
      cases s <;>
        simp [ROICalculator.calculate_checkout_upsell_impact,
          ROICalculator.calculate_shop_pay_aov_impact,
          aovVariantSpec, specDelta, AovImpact.mk.injEq] <;>
        norm_num
  · intro u
    refine ⟨?_, ?_, ?_⟩ <;>
      simp [ROICalculator.calculate_checkout_upsell_impact,
        defaultMerchantMetrics] <;>
      norm_num

/-- C7: the delta constants the seven impact functions actually apply (the
increase field of each result) are exactly the spec's table, feature by
feature and scenario by scenario. -/
theorem claim7_delta_table_exact
    (m : MerchantMetrics) (u : UpgradeMetrics) (s : GrowthScenario) :
    (ROICalculator.calculate_checkout_customization_impact ⟨m, u⟩ s).conversion_rate_increase
        = specDelta .checkoutCustomization s ∧
    (ROICalculator.calculate_checkout_upsell_impact ⟨m, u⟩ s).aov_increase
        = specDelta .checkoutUpsell s ∧
    (ROICalculator.calculate_plus_support_impact ⟨m, u⟩ s).conversion_rate_increase
        = specDelta .plusSupport s ∧
    (ROICalculator.calculate_audiences_impact ⟨m, u⟩ s).conversion_rate_increase
        = specDelta .audiencesRetargeting s ∧
    (ROICalculator.calculate_shop_pay_conversion_impact ⟨m, u⟩ s).conversion_rate_increase
        = specDelta .shopPayConversion s ∧
    (ROICalculator.calculate_shop_pay_aov_impact ⟨m, u⟩ s).aov_increase
        = specDelta .shopPayAov s ∧
    (ROICalculator.calculate_non_shop_pay_conversion_impact ⟨m, u⟩ s).conversion_rate_increase
        = specDelta .nonShopPayConversion s := by
  refine ⟨?_, ?_, ?_, ?_, ?_, ?_, ?_⟩ <;>
    cases s <;>
      simp [ROICalculator.calculate_checkout_customization_impact,
        ROICalculator.calculate_checkout_upsell_impact,
        ROICalculator.calculate_plus_support_impact,
        ROICalculator.calculate_audiences_impact,
        ROICalculator.calculate_shop_pay_conversion_impact,
        ROICalculator.calculate_shop_pay_aov_impact,
        ROICalculator.calculate_non_shop_pay_conversion_impact,
        specDelta] <;>
      norm_num

/-- C8: for non-negative merchant metrics, each feature's margin impact is
monotone non-decreasing across the Low / Medium / High scenarios (the delta
constants increase with the scenario). -/
theorem claim8_margin_impact_monotone
    (m : MerchantMetrics) (u : UpgradeMetrics)
    (htx : 0 ≤ m.annual_transactions) (haov : 0 ≤ m.aov)
    (hccr : 0 ≤ m.current_conversion_rate) (hpm : 0 ≤ m.profit_margin) :
    ((ROICalculator.calculate_checkout_customization_impact ⟨m, u⟩ .LOW).margin_impact ≤
        (ROICalculator.calculate_checkout_customization_impact ⟨m, u⟩ .MEDIUM).margin_impact ∧
      (ROICalculator.calculate_checkout_customization_impact ⟨m, u⟩ .MEDIUM).margin_impact ≤
        (ROICalculator.calculate_checkout_customization_impact ⟨m, u⟩ .HIGH).margin_impact) ∧
    ((ROICalculator.calculate_checkout_upsell_impact ⟨m, u⟩ .LOW).margin_impact ≤
        (ROICalculator.calculate_checkout_upsell_impact ⟨m, u⟩ .MEDIUM).margin_impact ∧
      (ROICalculator.calculate_checkout_upsell_impact ⟨m, u⟩ .MEDIUM).margin_impact ≤
        (ROICalculator.calculate_checkout_upsell_impact ⟨m, u⟩ .HIGH).margin_impact) ∧
    ((ROICalculator.calculate_plus_support_impact ⟨m, u⟩ .LOW).margin_impact ≤
        (ROICalculator.calculate_plus_support_impact ⟨m, u⟩ .MEDIUM).margin_impact ∧
      (ROICalculator.calculate_plus_support_impact ⟨m, u⟩ .MEDIUM).margin_impact ≤
        (ROICalculator.calculate_plus_support_impact ⟨m, u⟩ .HIGH).margin_impact) ∧
    ((ROICalculator.calculate_audiences_impact ⟨m, u⟩ .LOW).margin_impact ≤
        (ROICalculator.calculate_audiences_impact ⟨m, u⟩ .MEDIUM).margin_impact ∧
      (ROICalculator.calculate_audiences_impact ⟨m, u⟩ .MEDIUM).margin_impact ≤
        (ROICalculator.calculate_audiences_impact ⟨m, u⟩ .HIGH).margin_impact) ∧
    ((ROICalculator.calculate_shop_pay_conversion_impact ⟨m, u⟩ .LOW).margin_impact ≤
        (ROICalculator.calculate_shop_pay_conversion_impact ⟨m, u⟩ .MEDIUM).margin_impact ∧
      (ROICalculator.calculate_shop_pay_conversion_impact ⟨m, u⟩ .MEDIUM).margin_impact ≤
        (ROICalculator.calculate_shop_pay_conversion_impact ⟨m, u⟩ .HIGH).margin_impact) ∧
    ((ROICalculator.calculate_shop_pay_aov_impact ⟨m, u⟩ .LOW).margin_impact ≤
        (ROICalculator.calculate_shop_pay_aov_impact ⟨m, u⟩ .MEDIUM).margin_impact ∧
      (ROICalculator.calculate_shop_pay_aov_impact ⟨m, u⟩ .MEDIUM).margin_impact ≤
        (ROICalculator.calculate_shop_pay_aov_impact ⟨m, u⟩ .HIGH).margin_impact) ∧
    ((ROICalculator.calculate_non_shop_pay_conversion_impact ⟨m, u⟩ .LOW).margin_impact ≤
        (ROICalculator.calculate_non_shop_pay_conversion_impact ⟨m, u⟩ .MEDIUM).margin_impact ∧
      (ROICalculator.calculate_non_shop_pay_conversion_impact ⟨m, u⟩ .MEDIUM).margin_impact ≤
        (ROICalculator.calculate_non_shop_pay_conversion_impact ⟨m, u⟩ .HIGH).margin_impact) := by
  have h0 : 0 ≤ m.annual_transactions * m.aov * m.profit_margin := by positivity
  refine ⟨⟨?_, ?_⟩, ⟨?_, ?_⟩, ⟨?_, ?_⟩, ⟨?_, ?_⟩, ⟨?_, ?_⟩, ⟨?_, ?_⟩, ⟨?_, ?_⟩⟩ <;>
    simp only [ROICalculator.calculate_checkout_customization_impact,
      ROICalculator.calculate_checkout_upsell_impact,
      ROICalculator.calculate_plus_support_impact,
      ROICalculator.calculate_audiences_impact,
      ROICalculator.calculate_shop_pay_conversion_impact,
      ROICalculator.calculate_shop_pay_aov_impact,
      ROICalculator.calculate_non_shop_pay_conversion_impact] <;>
    nlinarith [h0]

/-- Witness for C8 at the UI-default metrics: the checkout-customization
margin impact does not decrease from Low to Medium. -/
theorem claim8_margin_impact_monotone_witness :
    (ROICalculator.calculate_checkout_customization_impact
        ⟨defaultMerchantMetrics, defaultUpgradeMetrics⟩ .LOW).margin_impact ≤
      (ROICalculator.calculate_checkout_customization_impact
        ⟨defaultMerchantMetrics, defaultUpgradeMetrics⟩ .MEDIUM).margin_impact :=
  (claim8_margin_impact_monotone defaultMerchantMetrics defaultUpgradeMetrics
    (by norm_num [defaultMerchantMetrics]) (by norm_num [defaultMerchantMetrics])
    (by norm_num [defaultMerchantMetrics]) (by norm_num [defaultMerchantMetrics])).1.1

/-- C9: the seven impact functions and the growth summary table read only
the merchant metrics — two calculators sharing merchant metrics but holding
arbitrarily different upgrade-cost mappings produce identical outputs. -/
theorem claim9_upgrade_costs_noninterference
    (m : MerchantMetrics) (u1 u2 : UpgradeMetrics) (s : GrowthScenario) :
    ROICalculator.calculate_checkout_customization_impact ⟨m, u1⟩ s =
      ROICalculator.calculate_checkout_customization_impact ⟨m, u2⟩ s ∧
    ROICalculator.calculate_checkout_upsell_impact ⟨m, u1⟩ s =
      ROICalculator.calculate_checkout_upsell_impact ⟨m, u2⟩ s ∧
    ROICalculator.calculate_plus_support_impact ⟨m, u1⟩ s =
      ROICalculator.calculate_plus_support_impact ⟨m, u2⟩ s ∧
    ROICalculator.calculate_audiences_impact ⟨m, u1⟩ s =
      ROICalculator.calculate_audiences_impact ⟨m, u2⟩ s ∧
    ROICalculator.calculate_shop_pay_conversion_impact ⟨m, u1⟩ s =
      ROICalculator.calculate_shop_pay_conversion_impact ⟨m, u2⟩ s ∧
    ROICalculator.calculate_shop_pay_aov_impact ⟨m, u1⟩ s =
      ROICalculator.calculate_shop_pay_aov_impact ⟨m, u2⟩ s ∧
    ROICalculator.calculate_non_shop_pay_conversion_impact ⟨m, u1⟩ s =
      ROICalculator.calculate_non_shop_pay_conversion_impact ⟨m, u2⟩ s ∧
    create_growth_summary_table ⟨m, u1⟩ = create_growth_summary_table ⟨m, u2⟩ :=
  ⟨rfl, rfl, rfl, rfl, rfl, rfl, rfl, rfl⟩
